import Mathlib

/-!
Shallow embedding of the TravelApi backend (Rust / rusqlite / actix-web).

The database is modelled as an explicit record of table rows; every
model-layer function that runs a SQL statement becomes a pure function on
that record.  `DateTime<Utc>` values are epoch seconds (`Int`), `f64`
values are `Rat`, `usize` is `Nat`.  Row ids and timestamps that the Rust
code draws from `Uuid::new_v4()` / `Utc::now()` are passed in as explicit
parameters.  Read queries (`SELECT`) may fail: a per-table fault channel
(`Option String`) injects the storage failure that `rusqlite` can report;
write statements are modelled as always succeeding.  `rand::thread_rng` is
modelled as a stream of raw draws (`Nat → Nat`); `gen_range(lo..hi)` keeps
the half-open-interval contract of the `rand` crate.
-/

namespace TravelApi

/-- Row of the `travel_plans` table / `models::travel_plan::TravelPlan`. -/
structure TravelPlan where
  id : String
  user_id : String
  name : String
  description : Option String
  start_location : String
  end_location : String
  start_date : Option Int
  end_date : Option Int
  created_at : Int
  updated_at : Int
deriving Repr, DecidableEq

/-- `models::travel_plan::NewTravelPlan`: the create payload, which carries
its own `user_id` field. -/
structure NewTravelPlan where
  user_id : String
  name : String
  description : Option String
  start_location : String
  end_location : String
  start_date : Option Int
  end_date : Option Int
deriving Repr, DecidableEq

/-- `models::travel_plan::UpdateTravelPlan`: all fields optional. -/
structure UpdateTravelPlan where
  name : Option String
  description : Option String
  start_location : Option String
  end_location : Option String
  start_date : Option Int
  end_date : Option Int
deriving Repr, DecidableEq

/-- Row of the `route_options` table / `models::route_option::RouteOption`. -/
structure RouteOption where
  id : String
  travel_plan_id : String
  name : String
  description : Option String
  distance : Option Rat
  duration : Option Int
  start_coordinates : String
  end_coordinates : String
  waypoints : Option String
  created_at : Int
deriving Repr, DecidableEq

/-- `models::route_option::NewRouteOption`. -/
structure NewRouteOption where
  travel_plan_id : String
  name : String
  description : Option String
  distance : Option Rat
  duration : Option Int
  start_coordinates : String
  end_coordinates : String
  waypoints : Option String
deriving Repr, DecidableEq

/-- Row of the `points_of_interest` table /
`models::point_of_interest::PointOfInterest`. -/
structure PointOfInterest where
  id : String
  route_option_id : String
  name : String
  description : Option String
  category : Option String
  coordinates : String
  created_at : Int
deriving Repr, DecidableEq

/-- `models::point_of_interest::NewPointOfInterest`. -/
structure NewPointOfInterest where
  route_option_id : String
  name : String
  description : Option String
  category : Option String
  coordinates : String
deriving Repr, DecidableEq

/-- Row of the `users` table / `models::user::User`. -/
structure User where
  id : String
  username : String
  password_hash : String
  email : String
  created_at : Int
deriving Repr, DecidableEq

/-- The SQLite database state (`db::schema::initialize_database` tables that
the travel-plan / route-option services touch), plus one fault channel per
table: `some msg` makes every `SELECT` on that table fail with `msg`,
modelling an underlying `rusqlite` read error. -/
structure Db where
  plans : List TravelPlan
  route_options : List RouteOption
  points_of_interest : List PointOfInterest
  plansFault : Option String := none
  routesFault : Option String := none
  poisFault : Option String := none
deriving Repr, DecidableEq

/-- Descending insertion, used to model `ORDER BY created_at DESC`. -/
def insertDesc (key : TravelPlan → Int) (x : TravelPlan) : List TravelPlan → List TravelPlan
  | [] => [x]
  | y :: ys => if key y < key x then x :: y :: ys else y :: insertDesc key x ys

/-- Descending sort by a key, used to model `ORDER BY created_at DESC`. -/
def sortDesc (key : TravelPlan → Int) : List TravelPlan → List TravelPlan
  | [] => []
  | x :: xs => insertDesc key x (sortDesc key xs)

/-- `TravelPlan::find_by_id`: `SELECT ... FROM travel_plans WHERE id = ?1`,
first row if any. -/
def TravelPlan.find_by_id (db : Db) (id : String) : Except String (Option TravelPlan) :=
  match db.plansFault with
  | some e => .error e
  | none => .ok ((db.plans.filter (fun p => p.id = id)).head?)

/-- `TravelPlan::find_by_user_id`: `SELECT ... WHERE user_id = ?1 ORDER BY
created_at DESC`. -/
def TravelPlan.find_by_user_id (db : Db) (user_id : String) : Except String (List TravelPlan) :=
  match db.plansFault with
  | some e => .error e
  | none => .ok (sortDesc (fun p => p.created_at) (db.plans.filter (fun p => p.user_id = user_id)))

/-- `TravelPlan::create`: inserts a row built from the payload.  The stored
and returned `user_id` is `new_plan.user_id`, the field carried by the
payload; the function declares no caller-identity parameter.  (`id` and
`now` stand for `Uuid::new_v4()` and `Utc::now()`.) -/
def TravelPlan.create (db : Db) (new_plan : NewTravelPlan) (id : String) (now : Int) :
    Except String (TravelPlan × Db) :=
  let plan : TravelPlan :=
    { id := id
      user_id := new_plan.user_id
      name := new_plan.name
      description := new_plan.description
      start_location := new_plan.start_location
      end_location := new_plan.end_location
      start_date := new_plan.start_date
      end_date := new_plan.end_date
      created_at := now
      updated_at := now }
  .ok (plan, { db with plans := db.plans ++ [plan] })

/-- `TravelPlan::update`: clones `self`, overwrites exactly the fields
present in `update`, sets `updated_at := now`, and runs `UPDATE travel_plans
SET name, description, start_location, end_location, start_date, end_date,
updated_at WHERE id = self.id` (the statement does not touch `id`,
`user_id` or `created_at`). -/
def TravelPlan.update (self : TravelPlan) (db : Db) (upd : UpdateTravelPlan) (now : Int) :
    Except String (TravelPlan × Db) :=
  let updated_plan : TravelPlan :=
    { self with
      name := match upd.name with | some v => v | none => self.name
      description := match upd.description with | some v => some v | none => self.description
      start_location := match upd.start_location with | some v => v | none => self.start_location
      end_location := match upd.end_location with | some v => v | none => self.end_location
      start_date := match upd.start_date with | some v => some v | none => self.start_date
      end_date := match upd.end_date with | some v => some v | none => self.end_date
      updated_at := now }
  .ok (updated_plan,
    { db with plans := db.plans.map (fun p =>
        if p.id = self.id then
          { p with
            name := updated_plan.name
            description := updated_plan.description
            start_location := updated_plan.start_location
            end_location := updated_plan.end_location
            start_date := updated_plan.start_date
            end_date := updated_plan.end_date
            updated_at := now }
        else p) })

/-- `TravelPlan::delete`: `DELETE FROM travel_plans WHERE id = ?1`; returns
whether any row was affected.  No other table is touched. -/
def TravelPlan.delete (db : Db) (id : String) : Except String (Bool × Db) :=
  let rows_affected := (db.plans.filter (fun p => p.id = id)).length
  .ok (decide (rows_affected > 0), { db with plans := db.plans.filter (fun p => p.id ≠ id) })

/-- `RouteOption::find_by_id`: `SELECT ... FROM route_options WHERE id = ?1`. -/
def RouteOption.find_by_id (db : Db) (id : String) : Except String (Option RouteOption) :=
  match db.routesFault with
  | some e => .error e
  | none => .ok ((db.route_options.filter (fun r => r.id = id)).head?)

/-- `RouteOption::find_by_travel_plan_id`:
`SELECT ... FROM route_options WHERE travel_plan_id = ?1`. -/
def RouteOption.find_by_travel_plan_id (db : Db) (travel_plan_id : String) :
    Except String (List RouteOption) :=
  match db.routesFault with
  | some e => .error e
  | none => .ok (db.route_options.filter (fun r => r.travel_plan_id = travel_plan_id))

/-- `RouteOption::create`: inserts a row built from the payload. -/
def RouteOption.create (db : Db) (new_route : NewRouteOption) (id : String) (now : Int) :
    Except String (RouteOption × Db) :=
  let route : RouteOption :=
    { id := id
      travel_plan_id := new_route.travel_plan_id
      name := new_route.name
      description := new_route.description
      distance := new_route.distance
      duration := new_route.duration
      start_coordinates := new_route.start_coordinates
      end_coordinates := new_route.end_coordinates
      waypoints := new_route.waypoints
      created_at := now }
  .ok (route, { db with route_options := db.route_options ++ [route] })

/-- `RouteOption::delete`: `DELETE FROM route_options WHERE id = ?1`. -/
def RouteOption.delete (db : Db) (id : String) : Except String (Bool × Db) :=
  let rows_affected := (db.route_options.filter (fun r => r.id = id)).length
  .ok (decide (rows_affected > 0),
    { db with route_options := db.route_options.filter (fun r => r.id ≠ id) })

/-- `PointOfInterest::find_by_route_option_id`:
`SELECT ... FROM points_of_interest WHERE route_option_id = ?1`. -/
def PointOfInterest.find_by_route_option_id (db : Db) (route_option_id : String) :
    Except String (List PointOfInterest) :=
  match db.poisFault with
  | some e => .error e
  | none => .ok (db.points_of_interest.filter (fun x => x.route_option_id = route_option_id))

/-- `PointOfInterest::create`: inserts a row built from the payload. -/
def PointOfInterest.create (db : Db) (new_poi : NewPointOfInterest) (id : String) (now : Int) :
    Except String (PointOfInterest × Db) :=
  let poi : PointOfInterest :=
    { id := id
      route_option_id := new_poi.route_option_id
      name := new_poi.name
      description := new_poi.description
      category := new_poi.category
      coordinates := new_poi.coordinates
      created_at := now }
  .ok (poi, { db with points_of_interest := db.points_of_interest ++ [poi] })

/-- Modelled from the spec: `PointOfInterest::delete_by_route_option_id` is
called by `RouteOptionService::delete_route_option` and
`delete_all_route_options` but is absent from the sources of
`models/point_of_interest.rs`; §4.4 specifies the operation as "delete by
parent route id (used by cascades)", i.e.
`DELETE FROM points_of_interest WHERE route_option_id = ?1`. -/
def PointOfInterest.delete_by_route_option_id (db : Db) (route_option_id : String) :
    Except String (Nat × Db) :=
  let deleted := (db.points_of_interest.filter (fun x => x.route_option_id = route_option_id)).length
  .ok (deleted,
    { db with points_of_interest :=
        db.points_of_interest.filter (fun x => x.route_option_id ≠ route_option_id) })

/-! ### Randomness model

`rand::thread_rng()` is a stream `g : Nat → Nat` of raw draws, consumed in
program order through an explicit index.  `gen_range(lo..hi)` keeps the
`rand` crate's half-open contract: the result lies in `[lo, hi)`. -/

/-- `rng.gen_range(lo..hi)` for integer ranges: a value in `[lo, hi)`. -/
def genRangeNat (lo hi : Nat) (raw : Nat) : Nat :=
  lo + raw % (hi - lo)

/-- Resolution of a raw draw when mapped into a real interval. -/
def rngDenom : Nat := 2 ^ 32

/-- `rng.gen_range(lo..hi)` for `f64` ranges, on `Rat`: a value in `[lo, hi)`. -/
def genRangeRat (lo hi : Rat) (raw : Nat) : Rat :=
  lo + (hi - lo) * ((raw % rngDenom : Nat) : Rat) / (rngDenom : Rat)

/-- `format!("{},{}", lat, lon)`: one coordinate pair. -/
def coordStr (lat lon : Rat) : String :=
  toString lat ++ "," ++ toString lon

/-- One random coordinate pair
`format!("{},{}", rng.gen_range(-90.0..90.0), rng.gen_range(-180.0..180.0))`,
consuming two raw draws. -/
def randCoord (g : Nat → Nat) (idx : Nat) : String :=
  coordStr (genRangeRat (-90) 90 (g idx)) (genRangeRat (-180) 180 (g (idx + 1)))

/-- The waypoint loop of `RouteOption::generate_random_options`: `n` random
coordinate pairs, two raw draws each; returns the pairs and the next rng
index. -/
def genWaypoints (g : Nat → Nat) : Nat → Nat → List String × Nat
  | idx, 0 => ([], idx)
  | idx, n + 1 =>
    let w := randCoord g idx
    let rest := genWaypoints g (idx + 2) n
    (w :: rest.1, rest.2)

/-- The `for i in 0..count` body of `RouteOption::generate_random_options`:
name `"Route Option {i+1}"`, description cycling by `i % 3`, distance
`gen_range(10.0..1000.0)`, duration `gen_range(30..720)`, `gen_range(1..5)`
waypoints joined with `";"`, then `RouteOption::create`.  `i` is the loop
index, the second argument the remaining iterations, `idx` the rng index;
`ids i` stands for the `Uuid::new_v4()` of the `i`-th created row. -/
def generateRouteOptionsLoop (travel_plan_id start_location end_location : String)
    (start_coords end_coords : String) (g : Nat → Nat) (ids : Nat → String) (now : Int) :
    Nat → Nat → Nat → Db → Except String (List RouteOption × Db)
  | _, 0, _, db => .ok ([], db)
  | i, rem + 1, idx, db =>
    let route_name := "Route Option " ++ toString (i + 1)
    let description :=
      if i % 3 = 0 then some ("Scenic route from " ++ start_location ++ " to " ++ end_location)
      else if i % 3 = 1 then some ("Fastest route from " ++ start_location ++ " to " ++ end_location)
      else some ("Alternative route from " ++ start_location ++ " to " ++ end_location)
    let distance := some (genRangeRat 10 1000 (g idx))
    let duration := some ((genRangeNat 30 720 (g (idx + 1)) : Int))
    let waypoint_count := genRangeNat 1 5 (g (idx + 2))
    let wps := genWaypoints g (idx + 3) waypoint_count
    let waypoints_str :=
      if wps.1.isEmpty then none else some (String.intercalate ";" wps.1)
    let new_route : NewRouteOption :=
      { travel_plan_id := travel_plan_id
        name := route_name
        description := description
        distance := distance
        duration := duration
        start_coordinates := start_coords
        end_coordinates := end_coords
        waypoints := waypoints_str }
    match RouteOption.create db new_route (ids i) now with
    | .error e => .error e
    | .ok (route, db') =>
      match generateRouteOptionsLoop travel_plan_id start_location end_location
          start_coords end_coords g ids now (i + 1) rem wps.2 db' with
      | .error e => .error e
      | .ok (routes, db'') => .ok (route :: routes, db'')

/-- `RouteOption::generate_random_options`: reads the plan's
`start_location` / `end_location` (`SELECT ... FROM travel_plans WHERE
id = ?1`; returns `Ok(vec![])` if the plan row is absent), draws one shared
start and one shared end coordinate pair for the batch, then runs the
creation loop. -/
def RouteOption.generate_random_options (db : Db) (travel_plan_id : String) (count : Nat)
    (g : Nat → Nat) (ids : Nat → String) (now : Int) : Except String (List RouteOption × Db) :=
  match db.plansFault with
  | some e => .error e
  | none =>
    match (db.plans.filter (fun p => p.id = travel_plan_id)).head? with
    | none => .ok ([], db)
    | some plan =>
      let start_coords := randCoord g 0
      let end_coords := randCoord g 2
      generateRouteOptionsLoop travel_plan_id plan.start_location plan.end_location
        start_coords end_coords g ids now 0 count 4 db

/-- The fixed 10-entry category list of
`PointOfInterest::generate_random_pois`. -/
def poiCategories : List String :=
  ["Restaurant", "Museum", "Park", "Hotel", "Landmark",
   "Beach", "Mountain", "Lake", "Forest", "Historical Site"]

/-- `[...][rng.gen_range(0..5)]`: a uniformly chosen entry of a fixed
5-entry list, one raw draw. -/
def pick5 (l : List String) (raw : Nat) : String :=
  l.getD (genRangeNat 0 5 raw) ""

/-- The name built by `PointOfInterest::generate_random_pois` for a
category, consuming one raw draw for the adjective. -/
def poiName (category : String) (raw : Nat) : String :=
  if category = "Restaurant" then
    "The " ++ pick5 ["Delicious", "Tasty", "Gourmet", "Cozy", "Fancy"] raw ++ " Restaurant"
  else if category = "Museum" then
    pick5 ["Art", "History", "Science", "Natural", "Modern"] raw ++ " Museum"
  else if category = "Park" then
    pick5 ["Central", "City", "National", "Memorial", "State"] raw ++ " Park"
  else if category = "Hotel" then
    "Hotel " ++ pick5 ["Grand", "Royal", "Luxury", "Comfort", "Plaza"] raw
  else if category = "Landmark" then
    "The " ++ pick5 ["Historic", "Ancient", "Famous", "Iconic", "Majestic"] raw ++ " Monument"
  else if category = "Beach" then
    pick5 ["Sandy", "Golden", "Paradise", "Sunset", "Crystal"] raw ++ " Beach"
  else if category = "Mountain" then
    "Mount " ++ pick5 ["Everest", "Fuji", "Kilimanjaro", "McKinley", "Blanc"] raw
  else if category = "Lake" then
    "Lake " ++ pick5 ["Superior", "Victoria", "Michigan", "Geneva", "Como"] raw
  else if category = "Forest" then
    pick5 ["Enchanted", "Dark", "Ancient", "Mystic", "Green"] raw ++ " Forest"
  else
    pick5 ["Historical", "Cultural", "Heritage", "Ancient", "Traditional"] raw ++ " Site"

/-- The description built by `PointOfInterest::generate_random_pois` for a
category, consuming one raw draw for the adjective. -/
def poiDescription (category : String) (raw : Nat) : Option String :=
  if category = "Restaurant" then
    some ("A " ++ pick5 ["cozy", "fancy", "family-friendly", "romantic", "traditional"] raw
      ++ " restaurant with excellent food and service.")
  else if category = "Museum" then
    some ("A museum showcasing "
      ++ pick5 ["historical", "artistic", "scientific", "cultural", "interactive"] raw
      ++ " exhibits.")
  else if category = "Park" then
    some ("A beautiful park with "
      ++ pick5 ["scenic", "panoramic", "breathtaking", "relaxing", "peaceful"] raw ++ " views.")
  else if category = "Hotel" then
    some ("A " ++ pick5 ["luxury", "boutique", "historic", "modern", "charming"] raw
      ++ " hotel with excellent amenities.")
  else if category = "Landmark" then
    some ("A famous landmark known for its "
      ++ pick5 ["impressive", "unique", "historic", "stunning", "iconic"] raw ++ " architecture.")
  else if category = "Beach" then
    some ("A " ++ pick5 ["sandy", "secluded", "popular", "pristine", "tropical"] raw
      ++ " beach with crystal clear waters.")
  else if category = "Mountain" then
    some ("A majestic mountain offering "
      ++ pick5 ["challenging", "scenic", "popular", "diverse", "beautiful"] raw
      ++ " hiking trails.")
  else if category = "Lake" then
    some ("A " ++ pick5 ["serene", "vast", "picturesque", "clear", "beautiful"] raw
      ++ " lake perfect for outdoor activities.")
  else if category = "Forest" then
    some ("A " ++ pick5 ["dense", "ancient", "magical", "lush", "protected"] raw
      ++ " forest with diverse flora and fauna.")
  else
    some ("A " ++ pick5 ["fascinating", "well-preserved", "ancient", "significant", "mysterious"] raw
      ++ " historical site with rich heritage.")

/-- The coordinate choice of one iteration of
`PointOfInterest::generate_random_pois`: the first POI is pinned at the
route's start coordinate, the last at the end coordinate, interior POIs at
a randomly chosen waypoint when the route has a waypoint list (one raw
draw), else at a fresh random coordinate (two raw draws).  Returns the
coordinate and the next rng index. -/
def poiCoordPick (start_coords end_coords : String) (waypoints : Option String) (count : Nat)
    (g : Nat → Nat) (i idx : Nat) : String × Nat :=
  if i = 0 then (start_coords, idx)
  else if i = count - 1 then (end_coords, idx)
  else
    match waypoints with
    | some waypoints_str =>
      let waypoint_list := waypoints_str.splitOn ";"
      if ¬ waypoint_list.isEmpty then
        (waypoint_list.getD (genRangeNat 0 waypoint_list.length (g idx)) "", idx + 1)
      else (randCoord g idx, idx + 2)
    | none => (randCoord g idx, idx + 2)

/-- The `for i in 0..count` body of `PointOfInterest::generate_random_pois`:
the coordinate choice of `poiCoordPick`, then a category draw, a name
adjective draw and a description adjective draw, then
`PointOfInterest::create`. -/
def generatePoisLoop (route_option_id start_coords end_coords : String)
    (waypoints : Option String) (count : Nat) (g : Nat → Nat) (pid : Nat → String) (now : Int) :
    Nat → Nat → Nat → Db → Except String (List PointOfInterest × Db)
  | _, 0, _, db => .ok ([], db)
  | i, rem + 1, idx, db =>
    let cp := poiCoordPick start_coords end_coords waypoints count g i idx
    let category := poiCategories.getD (genRangeNat 0 poiCategories.length (g cp.2)) ""
    let name := poiName category (g (cp.2 + 1))
    let description := poiDescription category (g (cp.2 + 2))
    let new_poi : NewPointOfInterest :=
      { route_option_id := route_option_id
        name := name
        description := description
        category := some category
        coordinates := cp.1 }
    match PointOfInterest.create db new_poi (pid i) now with
    | .error e => .error e
    | .ok (poi, db') =>
      match generatePoisLoop route_option_id start_coords end_coords waypoints count g pid now
          (i + 1) rem (cp.2 + 3) db' with
      | .error e => .error e
      | .ok (pois, db'') => .ok (poi :: pois, db'')

/-- `PointOfInterest::generate_random_pois`: reads the route's
`start_coordinates`, `end_coordinates` and `waypoints`
(`SELECT ... FROM route_options WHERE id = ?1`; returns `Ok(vec![])` if the
route row is absent), then runs the creation loop. -/
def PointOfInterest.generate_random_pois (db : Db) (route_option_id : String) (count : Nat)
    (g : Nat → Nat) (pid : Nat → String) (now : Int) :
    Except String (List PointOfInterest × Db) :=
  match db.routesFault with
  | some e => .error e
  | none =>
    match (db.route_options.filter (fun r => r.id = route_option_id)).head? with
    | none => .ok ([], db)
    | some route =>
      generatePoisLoop route_option_id route.start_coordinates route.end_coordinates
        route.waypoints count g pid now 0 count 0 db

/-! ### Service layer -/

/-- `services::travel_plan_service::TravelPlanError`. -/
inductive TravelPlanError where
  | notFound
  | unauthorized
  | databaseError (msg : String)
deriving Repr, DecidableEq

/-- `services::travel_plan_service::TravelPlanDto`. -/
structure TravelPlanDto where
  travel_plan : TravelPlan
  has_routes_generated : Bool
deriving Repr, DecidableEq

/-- `services::route_option_service::RouteOptionError`. -/
inductive RouteOptionError where
  | travelPlanError (e : TravelPlanError)
  | routeNotFound
  | invalidRouteOption
  | databaseError (msg : String)
deriving Repr, DecidableEq

/-- `services::route_option_service::RouteOptionWithPois`. -/
structure RouteOptionWithPois where
  route : RouteOption
  points_of_interest : List PointOfInterest
deriving Repr, DecidableEq

/-- The `has_routes` computation shared by `get_travel_plans` and
`get_travel_plan_by_id`: a failing `RouteOption::find_by_travel_plan_id`
is logged and swallowed, yielding `false`. -/
def hasRoutesFlag (db : Db) (plan_id : String) : Bool :=
  match RouteOption.find_by_travel_plan_id db plan_id with
  | .ok routes => !routes.isEmpty
  | .error _ => false

/-- `TravelPlanService::get_travel_plans`. -/
def TravelPlanService.get_travel_plans (db : Db) (user_id : String) :
    Except TravelPlanError (List TravelPlanDto) :=
  match TravelPlan.find_by_user_id db user_id with
  | .ok plans =>
    .ok (plans.map (fun plan =>
      { travel_plan := plan, has_routes_generated := hasRoutesFlag db plan.id }))
  | .error e => .error (.databaseError e)

/-- `TravelPlanService::get_travel_plan_by_id`: `NotFound` when no row has
that id, `Unauthorized` when the row's `user_id` differs from the caller. -/
def TravelPlanService.get_travel_plan_by_id (db : Db) (plan_id user_id : String) :
    Except TravelPlanError TravelPlanDto :=
  match TravelPlan.find_by_id db plan_id with
  | .ok (some plan) =>
    if plan.user_id ≠ user_id then .error .unauthorized
    else .ok { travel_plan := plan, has_routes_generated := hasRoutesFlag db plan_id }
  | .ok none => .error .notFound
  | .error e => .error (.databaseError e)

/-- `TravelPlanService::create_travel_plan`.  The Rust call site passes the
authenticated `user_id` as a third argument to `TravelPlan::create`, but
the definition of `TravelPlan::create` in `models/travel_plan.rs` declares
only `(conn, new_plan)` and stores `new_plan.user_id`; the model-layer
definition is embedded, so the `user_id` parameter is unused here. -/
def TravelPlanService.create_travel_plan (db : Db) (plan_data : NewTravelPlan)
    (_user_id : String) (id : String) (now : Int) :
    Except TravelPlanError (TravelPlanDto × Db) :=
  match TravelPlan.create db plan_data id now with
  | .ok (plan, db') => .ok ({ travel_plan := plan, has_routes_generated := false }, db')
  | .error e => .error (.databaseError e)

/-- `TravelPlanService::update_travel_plan`: resolves through
`get_travel_plan_by_id`, then `TravelPlan::update`. -/
def TravelPlanService.update_travel_plan (db : Db) (plan_id : String)
    (update_data : UpdateTravelPlan) (user_id : String) (now : Int) :
    Except TravelPlanError (TravelPlanDto × Db) :=
  match TravelPlanService.get_travel_plan_by_id db plan_id user_id with
  | .error e => .error e
  | .ok plan_dto =>
    match plan_dto.travel_plan.update db update_data now with
    | .ok (updated_plan, db') =>
      .ok ({ travel_plan := updated_plan,
             has_routes_generated := plan_dto.has_routes_generated }, db')
    | .error e => .error (.databaseError e)

/-- `TravelPlanService::delete_travel_plan`: resolves through
`get_travel_plan_by_id`, then `TravelPlan::delete`. -/
def TravelPlanService.delete_travel_plan (db : Db) (plan_id user_id : String) :
    Except TravelPlanError Db :=
  match TravelPlanService.get_travel_plan_by_id db plan_id user_id with
  | .error e => .error e
  | .ok _ =>
    match TravelPlan.delete db plan_id with
    | .ok (true, db') => .ok db'
    | .ok (false, _) => .error .notFound
    | .error e => .error (.databaseError e)

/-- The per-route loop of `RouteOptionService::get_route_options`: joins
each route with its points of interest, failing on the first lookup
error. -/
def attachPois (db : Db) : List RouteOption → Except RouteOptionError (List RouteOptionWithPois)
  | [] => .ok []
  | route :: rest =>
    match PointOfInterest.find_by_route_option_id db route.id with
    | .error e => .error (.databaseError e)
    | .ok pois =>
      match attachPois db rest with
      | .error e => .error e
      | .ok rest' => .ok ({ route := route, points_of_interest := pois } :: rest')

/-- `RouteOptionService::get_route_options`: plan ownership check first,
then the eager join. -/
def RouteOptionService.get_route_options (db : Db) (plan_id user_id : String) :
    Except RouteOptionError (List RouteOptionWithPois) :=
  match TravelPlanService.get_travel_plan_by_id db plan_id user_id with
  | .error e => .error (.travelPlanError e)
  | .ok _ =>
    match RouteOption.find_by_travel_plan_id db plan_id with
    | .ok routes => attachPois db routes
    | .error e => .error (.databaseError e)

/-- The per-route loop of `RouteOptionService::generate_route_options`:
generates `poi_count` points of interest for each freshly created route.
`gp i` is the rng of the `i`-th `generate_random_pois` call (Rust creates a
fresh `thread_rng` per call), `pids i` its id supply. -/
def generatePoisForRoutes (gp : Nat → Nat → Nat) (pids : Nat → Nat → String) (now : Int)
    (poi_count : Nat) :
    Nat → List RouteOption → Db → Except RouteOptionError (List RouteOptionWithPois × Db)
  | _, [], db => .ok ([], db)
  | i, route :: rest, db =>
    match PointOfInterest.generate_random_pois db route.id poi_count (gp i) (pids i) now with
    | .error e => .error (.databaseError e)
    | .ok (pois, db') =>
      match generatePoisForRoutes gp pids now poi_count (i + 1) rest db' with
      | .error e => .error e
      | .ok (rest', db'') =>
        .ok ({ route := route, points_of_interest := pois } :: rest', db'')

/-- `RouteOptionService::generate_route_options`: plan ownership check
first, then `RouteOption::generate_random_options`, then
`2 + (count % 4)` points of interest per created route. -/
def RouteOptionService.generate_route_options (db : Db) (plan_id user_id : String) (count : Nat)
    (g : Nat → Nat) (ids : Nat → String) (gp : Nat → Nat → Nat) (pids : Nat → Nat → String)
    (now : Int) : Except RouteOptionError (List RouteOptionWithPois × Db) :=
  match TravelPlanService.get_travel_plan_by_id db plan_id user_id with
  | .error e => .error (.travelPlanError e)
  | .ok _ =>
    match RouteOption.generate_random_options db plan_id count g ids now with
    | .error e => .error (.databaseError e)
    | .ok (routes, db') =>
      let poi_count := 2 + count % 4
      generatePoisForRoutes gp pids now poi_count 0 routes db'

/-- `RouteOptionService::get_route_option_by_id`: plan ownership check
first; `RouteNotFound` when no route row has that id,
`InvalidRouteOption` when the row exists but belongs to a different plan. -/
def RouteOptionService.get_route_option_by_id (db : Db) (plan_id route_id user_id : String) :
    Except RouteOptionError RouteOptionWithPois :=
  match TravelPlanService.get_travel_plan_by_id db plan_id user_id with
  | .error e => .error (.travelPlanError e)
  | .ok _ =>
    match RouteOption.find_by_id db route_id with
    | .ok (some route) =>
      if route.travel_plan_id ≠ plan_id then .error .invalidRouteOption
      else
        match PointOfInterest.find_by_route_option_id db route.id with
        | .ok pois => .ok { route := route, points_of_interest := pois }
        | .error e => .error (.databaseError e)
    | .ok none => .error .routeNotFound
    | .error e => .error (.databaseError e)

/-- `RouteOptionService::delete_route_option`: plan ownership check, route
lookup, cross-plan check, then POIs before the route. -/
def RouteOptionService.delete_route_option (db : Db) (plan_id route_id user_id : String) :
    Except RouteOptionError (Bool × Db) :=
  match TravelPlanService.get_travel_plan_by_id db plan_id user_id with
  | .error e => .error (.travelPlanError e)
  | .ok _ =>
    match RouteOption.find_by_id db route_id with
    | .ok (some route) =>
      if route.travel_plan_id ≠ plan_id then .error .invalidRouteOption
      else
        match PointOfInterest.delete_by_route_option_id db route_id with
        | .error e => .error (.databaseError e)
        | .ok (_, db') =>
          match RouteOption.delete db' route_id with
          | .ok (deleted, db'') => .ok (deleted, db'')
          | .error e => .error (.databaseError e)
    | .ok none => .error .routeNotFound
    | .error e => .error (.databaseError e)

/-- The per-route POI-deletion loop of
`RouteOptionService::delete_all_route_options`. -/
def deletePoisOfRoutes : List RouteOption → Db → Except RouteOptionError Db
  | [], db => .ok db
  | route :: rest, db =>
    match PointOfInterest.delete_by_route_option_id db route.id with
    | .error e => .error (.databaseError e)
    | .ok (_, db') => deletePoisOfRoutes rest db'

/-- `RouteOptionService::delete_all_route_options`: plan ownership check,
then POIs of every route of the plan, then
`DELETE FROM route_options WHERE travel_plan_id = ?1`. -/
def RouteOptionService.delete_all_route_options (db : Db) (plan_id user_id : String) :
    Except RouteOptionError (Nat × Db) :=
  match TravelPlanService.get_travel_plan_by_id db plan_id user_id with
  | .error e => .error (.travelPlanError e)
  | .ok _ =>
    match RouteOption.find_by_travel_plan_id db plan_id with
    | .error e => .error (.databaseError e)
    | .ok route_options =>
      let count := route_options.length
      if count = 0 then .ok (0, db)
      else
        match deletePoisOfRoutes route_options db with
        | .error e => .error e
        | .ok db' =>
          let deleted_count :=
            (db'.route_options.filter (fun r => r.travel_plan_id = plan_id)).length
          .ok (deleted_count,
            { db' with route_options :=
                db'.route_options.filter (fun r => r.travel_plan_id ≠ plan_id) })

/-! ### Session tokens (`middleware/auth.rs`) -/

/-- `middleware::auth::Claims` (`exp` / `iat` are epoch seconds). -/
structure Claims where
  sub : String
  username : String
  exp : Int
  iat : Int
deriving Repr, DecidableEq

/-- `TOKEN_EXPIRATION_HOURS`. -/
def TOKEN_EXPIRATION_HOURS : Int := 24

/-- `JWT_SECRET`. -/
def JWT_SECRET : String := "secret_key_for_jwt_token_generation"

/-- `Claims::new`: `exp = now + Duration::hours(24)` as epoch seconds. -/
def Claims.new (user_id username : String) (now : Int) : Claims :=
  { sub := user_id
    username := username
    exp := now + TOKEN_EXPIRATION_HOURS * 3600
    iat := now }

/-- Error classes of the token scheme that the claims distinguish. -/
inductive JwtError where
  | invalidSignature
  | expiredSignature
deriving Repr, DecidableEq

/-- Modelled from the spec: the `jsonwebtoken` crate used by
`generate_token` / `validate_token` is an external dependency, absent from
the sources.  §4.2: a token is the serialized claims signed with the shared
secret. -/
structure Jwt where
  claims : Claims
  signedWith : String
deriving Repr, DecidableEq

/-- Modelled from the spec: `jsonwebtoken::encode` signs the claims with
the secret. -/
def jwtEncode (c : Claims) (secret : String) : Jwt :=
  { claims := c, signedWith := secret }

/-- Modelled from the spec: `jsonwebtoken::decode` "parses and
cryptographically verifies the signature, then checks `now < expires_at`";
an expiry failure is classified as an expiry error. -/
def jwtDecode (t : Jwt) (secret : String) (now : Int) : Except JwtError Claims :=
  if t.signedWith = secret then
    if now < t.claims.exp then .ok t.claims else .error .expiredSignature
  else .error .invalidSignature

/-- `middleware::auth::AuthToken`. -/
structure AuthToken where
  token : Jwt
  token_type : String
  expires_in : Int
deriving Repr, DecidableEq

/-- `middleware::auth::generate_token`. -/
def generate_token (user : User) (now : Int) : Except JwtError AuthToken :=
  let claims := Claims.new user.id user.username now
  .ok { token := jwtEncode claims JWT_SECRET
        token_type := "Bearer"
        expires_in := TOKEN_EXPIRATION_HOURS * 3600 }

/-- `middleware::auth::validate_token`. -/
def validate_token (token : Jwt) (now : Int) : Except JwtError Claims :=
  jwtDecode token JWT_SECRET now

/-! ### Route layer (`routes/travel_plan.rs`), error bodies only -/

/-- The JSON body of a travel-plan response: the serialized payload on
success, `ErrorResponse { error }` on failure. -/
inductive PlanBody where
  | plan (dto : TravelPlanDto)
  | plans (dtos : List TravelPlanDto)
  | noContent
  | err (msg : String)
deriving Repr, DecidableEq

/-- The response mapping of the `get_travel_plan_by_id` handler in
`routes/travel_plan.rs`: status code and body per service outcome. -/
def routeGetTravelPlanById (r : Except TravelPlanError TravelPlanDto) : Nat × PlanBody :=
  match r with
  | .ok plan => (200, .plan plan)
  | .error .notFound => (404, .err "Travel plan not found")
  | .error .unauthorized =>
    (403, .err "You don\x27t have permission to access this travel plan")
  | .error (.databaseError e) => (500, .err ("Database error: " ++ e))

/-- The response mapping of the `get_travel_plans` handler in
`routes/travel_plan.rs`. -/
def routeGetTravelPlans (r : Except TravelPlanError (List TravelPlanDto)) : Nat × PlanBody :=
  match r with
  | .ok plans => (200, .plans plans)
  | .error (.databaseError e) => (500, .err ("Database error: " ++ e))
  | .error _ => (500, .err "Failed to fetch travel plans")

/-! ### Concrete states used by witnesses and counterexamples -/

/-- A plan owned by `"alice"`. -/
def planA : TravelPlan :=
  { id := "p1", user_id := "alice", name := "Trip", description := none,
    start_location := "NYC", end_location := "LA", start_date := none, end_date := none,
    created_at := 0, updated_at := 0 }

/-- A route option belonging to `planA`. -/
def routeA : RouteOption :=
  { id := "r1", travel_plan_id := "p1", name := "Route Option 1", description := none,
    distance := some 100, duration := some 60, start_coordinates := "1,2",
    end_coordinates := "3,4", waypoints := some "5,6", created_at := 0 }

/-- A route option belonging to a foreign plan `"p2"`. -/
def routeB : RouteOption :=
  { id := "r2", travel_plan_id := "p2", name := "Route Option 1", description := none,
    distance := some 100, duration := some 60, start_coordinates := "1,2",
    end_coordinates := "3,4", waypoints := none, created_at := 0 }

/-- A point of interest belonging to `routeA`. -/
def poiA : PointOfInterest :=
  { id := "x1", route_option_id := "r1", name := "Central Park", description := none,
    category := some "Park", coordinates := "1,2", created_at := 0 }

/-- State with one plan, one child route and one child POI. -/
def dbFull : Db := { plans := [planA], route_options := [routeA, routeB],
                     points_of_interest := [poiA] }

/-- State with one plan and no children. -/
def dbPlain : Db := { plans := [planA], route_options := [], points_of_interest := [] }

/-- `dbFull` with the route-option read channel failing. -/
def dbRouteFault : Db := { dbFull with routesFault := some "disk I/O error" }

/-! ### C1: ownership isolation through `get_travel_plan_by_id` -/

/-- C1: for every plan id `p` and caller `u`, `get_travel_plan_by_id`
returns `NotFound` when no plan row has id `p`, returns `Unauthorized`
(carrying no plan data) when the row exists but its `user_id` differs from
`u`, and every operation that resolves through it — update, delete, and the
route-option list/generate/get/delete operations — returns that same
`Unauthorized` outcome for a non-owner. -/
theorem ownership_isolation (db : Db) (p u : String) :
    (TravelPlan.find_by_id db p = .ok none →
      TravelPlanService.get_travel_plan_by_id db p u = .error .notFound) ∧
    (∀ plan, TravelPlan.find_by_id db p = .ok (some plan) → plan.user_id ≠ u →
      TravelPlanService.get_travel_plan_by_id db p u = .error .unauthorized ∧
      (∀ upd now, TravelPlanService.update_travel_plan db p upd u now = .error .unauthorized) ∧
      TravelPlanService.delete_travel_plan db p u = .error .unauthorized ∧
      RouteOptionService.get_route_options db p u = .error (.travelPlanError .unauthorized) ∧
      (∀ count g ids gp pids now,
        RouteOptionService.generate_route_options db p u count g ids gp pids now =
          .error (.travelPlanError .unauthorized)) ∧
      (∀ rid, RouteOptionService.get_route_option_by_id db p rid u =
          .error (.travelPlanError .unauthorized)) ∧
      (∀ rid, RouteOptionService.delete_route_option db p rid u =
          .error (.travelPlanError .unauthorized)) ∧
      RouteOptionService.delete_all_route_options db p u =
        .error (.travelPlanError .unauthorized)) := by
  constructor
  · intro h
    simp [TravelPlanService.get_travel_plan_by_id, h]
  · intro plan hfind hne
    have hget : TravelPlanService.get_travel_plan_by_id db p u = .error .unauthorized := by
      simp [TravelPlanService.get_travel_plan_by_id, hfind, hne]
    refine ⟨hget, ?_, ?_, ?_, ?_, ?_, ?_, ?_⟩ <;>
      simp [TravelPlanService.update_travel_plan, TravelPlanService.delete_travel_plan,
        RouteOptionService.get_route_options, RouteOptionService.generate_route_options,
        RouteOptionService.get_route_option_by_id, RouteOptionService.delete_route_option,
        RouteOptionService.delete_all_route_options, hget]

/-- Witness for C1 on a concrete state: a missing id yields `NotFound`, and
a non-owner caller gets `Unauthorized` from the plan get and from every
operation resolving through it. -/
theorem ownership_isolation_witness :
    TravelPlanService.get_travel_plan_by_id dbPlain "p9" "bob" = .error .notFound ∧
    TravelPlanService.get_travel_plan_by_id dbPlain "p1" "bob" = .error .unauthorized ∧
    (∀ upd now,
      TravelPlanService.update_travel_plan dbPlain "p1" upd "bob" now = .error .unauthorized) ∧
    TravelPlanService.delete_travel_plan dbPlain "p1" "bob" = .error .unauthorized ∧
    RouteOptionService.get_route_options dbPlain "p1" "bob" =
      .error (.travelPlanError .unauthorized) ∧
    (∀ count g ids gp pids now,
      RouteOptionService.generate_route_options dbPlain "p1" "bob" count g ids gp pids now =
        .error (.travelPlanError .unauthorized)) ∧
    (∀ rid, RouteOptionService.get_route_option_by_id dbPlain "p1" rid "bob" =
        .error (.travelPlanError .unauthorized)) ∧
    (∀ rid, RouteOptionService.delete_route_option dbPlain "p1" rid "bob" =
        .error (.travelPlanError .unauthorized)) ∧
    RouteOptionService.delete_all_route_options dbPlain "p1" "bob" =
      .error (.travelPlanError .unauthorized) := by
  have h1 := (ownership_isolation dbPlain "p9" "bob").1 (by rfl)
  have h2 := (ownership_isolation dbPlain "p1" "bob").2 planA (by rfl) (by decide)
  exact ⟨h1, h2.1, h2.2.1, h2.2.2.1, h2.2.2.2.1, h2.2.2.2.2.1, h2.2.2.2.2.2.1,
    h2.2.2.2.2.2.2.1, h2.2.2.2.2.2.2.2⟩

/-! ### C7: `RouteNotFound` vs `InvalidRouteOption` -/

/-- C7: with the plan ownership check already passed, `get_route_option_by_id`
returns `RouteNotFound` when no route row has the given id, and the
specific `InvalidRouteOption` (not `RouteNotFound`) when the row exists but
its `travel_plan_id` differs from the given plan id. -/
theorem route_mismatch_error (db : Db) (p rid u : String) (dto : TravelPlanDto)
    (hown : TravelPlanService.get_travel_plan_by_id db p u = .ok dto) :
    (RouteOption.find_by_id db rid = .ok none →
      RouteOptionService.get_route_option_by_id db p rid u = .error .routeNotFound) ∧
    (∀ route, RouteOption.find_by_id db rid = .ok (some route) →
      route.travel_plan_id ≠ p →
      RouteOptionService.get_route_option_by_id db p rid u = .error .invalidRouteOption) := by
  constructor
  · intro h
    simp [RouteOptionService.get_route_option_by_id, hown, h]
  · intro route hfind hne
    simp [RouteOptionService.get_route_option_by_id, hown, hfind, hne]

/-- Witness for C7 on a concrete state: a missing route id yields
`RouteNotFound`; an existing route attached to a different plan yields
`InvalidRouteOption`. -/
theorem route_mismatch_error_witness :
    RouteOptionService.get_route_option_by_id dbFull "p1" "r9" "alice" =
      .error .routeNotFound ∧
    RouteOptionService.get_route_option_by_id dbFull "p1" "r2" "alice" =
      .error .invalidRouteOption := by
  have hown : TravelPlanService.get_travel_plan_by_id dbFull "p1" "alice" =
      .ok { travel_plan := planA, has_routes_generated := true } := by rfl
  constructor
  · exact (route_mismatch_error dbFull "p1" "r9" "alice" _ hown).1 (by rfl)
  · exact (route_mismatch_error dbFull "p1" "r2" "alice" _ hown).2 routeB (by rfl) (by decide)

/-! ### C2: the delete cascade -/

/-- C2 (code bug): on a state holding a plan, a child route option and a
child point of interest, `delete_travel_plan` by the owner succeeds, yet
the child route option is still retrievable by `travel_plan_id` and its
point of interest by `route_option_id` — `TravelPlan::delete` runs only
`DELETE FROM travel_plans WHERE id = ?1` and no cascade exists anywhere. -/
theorem delete_leaves_orphans :
    ∃ db', TravelPlanService.delete_travel_plan dbFull "p1" "alice" = .ok db' ∧
      RouteOption.find_by_travel_plan_id db' "p1" = .ok [routeA] ∧
      PointOfInterest.find_by_route_option_id db' "r1" = .ok [poiA] ∧
      TravelPlan.find_by_id db' "p1" = .ok none :=
  ⟨_, rfl, by rfl, by rfl, by rfl⟩

/-! ### C3: owner forcing on create -/

/-- A create payload whose `user_id` field names someone other than the
authenticated caller. -/
def spoofPayload : NewTravelPlan :=
  { user_id := "mallory", name := "Trip", description := none,
    start_location := "NYC", end_location := "LA", start_date := none, end_date := none }

/-- C3 (code bug): `create_travel_plan` called by `"alice"` on a payload
carrying `user_id = "mallory"` stores and returns a plan whose `user_id`
is `"mallory"`, not the authenticated caller — `TravelPlan::create` stores
`new_plan.user_id` and declares no caller parameter (the service call site
even passes a third `user_id` argument that the model function does not
accept). -/
theorem create_stores_payload_user_id :
    ∃ dto db', TravelPlanService.create_travel_plan dbPlain spoofPayload "alice" "p7" 5 =
        .ok (dto, db') ∧
      dto.travel_plan.user_id = "mallory" ∧
      dto.travel_plan.user_id ≠ "alice" ∧
      TravelPlan.find_by_id db' "p7" = .ok (some dto.travel_plan) :=
  ⟨_, _, rfl, rfl, by decide, by rfl⟩

/-! ### C4: storage errors surfaced to the caller -/

/-- C4 counterexample: for a storage failure with message
`"disk I/O error"`, the body that the `get_travel_plan_by_id` handler
returns to the caller contains that underlying text verbatim. -/
theorem storage_error_leak :
    ∃ rest, (routeGetTravelPlanById (.error (.databaseError "disk I/O error"))).2 =
      .err (rest ++ "disk I/O error") ∧ rest = "Database error: " :=
  ⟨"Database error: ", by decide, rfl⟩

/-- C4 amended: for every storage failure, the `get_travel_plan_by_id` and
`get_travel_plans` handlers return status 500 with body
`"Database error: " ++ e` — the underlying persistence error's text is
embedded in the response rather than replaced by a generic message (the
generic texts are used only for the other error kinds). -/
theorem storage_error_passthrough (e : String) :
    routeGetTravelPlanById (.error (.databaseError e)) =
      (500, .err ("Database error: " ++ e)) ∧
    routeGetTravelPlans (.error (.databaseError e)) =
      (500, .err ("Database error: " ++ e)) :=
  ⟨rfl, rfl⟩

/-! ### C5: token round trip -/

/-- A concrete registered user. -/
def userAlice : User :=
  { id := "u1", username := "alice", password_hash := "h", email := "a@x.com", created_at := 0 }

/-- A concrete claims object whose expiry lies in the past of `now = 0`. -/
def claimsExpired : Claims :=
  { sub := "u9", username := "bob", exp := -5, iat := -9 }

/-- C5: verifying the token issued for a user immediately after issuance
succeeds, with subject the user's id and expiry the issue time plus the
fixed 24-hour TTL; verifying a token (signed with the shared secret) whose
expiry lies in the past fails with the expiry-classified error. -/
theorem token_round_trip (user : User) (now : Int) :
    (∀ tok, generate_token user now = .ok tok →
      ∃ c, validate_token tok.token now = .ok c ∧ c.sub = user.id ∧
        c.exp = now + TOKEN_EXPIRATION_HOURS * 3600) ∧
    (∀ c, c.exp < now →
      validate_token (jwtEncode c JWT_SECRET) now = .error .expiredSignature) := by
  constructor
  · intro tok htok
    have hlt : now < now + TOKEN_EXPIRATION_HOURS * 3600 := by
      simp [TOKEN_EXPIRATION_HOURS]
    cases htok
    refine ⟨Claims.new user.id user.username now, ?_, rfl, rfl⟩
    simp [validate_token, jwtDecode, jwtEncode, Claims.new, hlt]
  · intro c hc
    have hnlt : ¬ now < c.exp := by omega
    simp [validate_token, jwtDecode, jwtEncode, hnlt]

/-- Witness for C5 at a concrete user and issue time. -/
theorem token_round_trip_witness :
    (∃ c, validate_token (jwtEncode (Claims.new userAlice.id userAlice.username 0) JWT_SECRET) 0 =
        .ok c ∧ c.sub = userAlice.id ∧ c.exp = 0 + TOKEN_EXPIRATION_HOURS * 3600) ∧
    validate_token (jwtEncode claimsExpired JWT_SECRET) 0 = .error .expiredSignature := by
  constructor
  · exact (token_round_trip userAlice 0).1 _ rfl
  · exact (token_round_trip userAlice 0).2 claimsExpired (by decide)

/-! ### C10: the swallowed `has_routes_generated` lookup failure -/

/-- C10: when the route-option read channel fails, `get_travel_plans` and
`get_travel_plan_by_id` still succeed, reporting `has_routes_generated =
false` for every plan — the lookup error is swallowed. -/
theorem has_routes_fault_swallowed (db : Db) (u plan_id e : String)
    (hfault : db.routesFault = some e) :
    (∀ plans, TravelPlan.find_by_user_id db u = .ok plans →
      TravelPlanService.get_travel_plans db u =
        .ok (plans.map (fun plan => { travel_plan := plan, has_routes_generated := false }))) ∧
    (∀ plan, TravelPlan.find_by_id db plan_id = .ok (some plan) → plan.user_id = u →
      TravelPlanService.get_travel_plan_by_id db plan_id u =
        .ok { travel_plan := plan, has_routes_generated := false }) := by
  have hflag : ∀ pid, hasRoutesFlag db pid = false := by
    intro pid
    simp [hasRoutesFlag, RouteOption.find_by_travel_plan_id, hfault]
  constructor
  · intro plans hp
    simp [TravelPlanService.get_travel_plans, hp, hflag]
  · intro plan hp hown
    simp [TravelPlanService.get_travel_plan_by_id, hp, hown, hflag]

/-- Witness for C10 on a concrete state that does contain a route option
for the plan: the successful results still report `false`. -/
theorem has_routes_fault_swallowed_witness :
    dbRouteFault.route_options.filter (fun r => r.travel_plan_id = "p1") ≠ [] ∧
    TravelPlanService.get_travel_plans dbRouteFault "alice" =
      .ok [{ travel_plan := planA, has_routes_generated := false }] ∧
    TravelPlanService.get_travel_plan_by_id dbRouteFault "p1" "alice" =
      .ok { travel_plan := planA, has_routes_generated := false } := by
  refine ⟨by decide, ?_, ?_⟩
  · exact (has_routes_fault_swallowed dbRouteFault "alice" "p1" "disk I/O error" rfl).1
      [planA] (by rfl)
  · exact (has_routes_fault_swallowed dbRouteFault "alice" "p1" "disk I/O error" rfl).2
      planA (by rfl) rfl

/-! ### C8: partial update frame conditions -/

/-- Inversion of a successful `TravelPlan::find_by_id`. -/
theorem find_by_id_inv (db : Db) (p : String) (plan : TravelPlan)
    (h : TravelPlan.find_by_id db p = .ok (some plan)) :
    db.plansFault = none ∧ (db.plans.filter (fun q => q.id = p)).head? = some plan := by
  unfold TravelPlan.find_by_id at h
  cases hf : db.plansFault with
  | some e => rw [hf] at h; simp at h
  | none =>
    rw [hf] at h
    simp only [Except.ok.injEq] at h
    exact ⟨rfl, h⟩

/-- Filtering by row id commutes with a row map that preserves ids. -/
theorem filter_map_head (l : List TravelPlan) (p : String) (f : TravelPlan → TravelPlan)
    (hid : ∀ q, (f q).id = q.id) :
    ((l.map f).filter (fun q => q.id = p)).head? =
      ((l.filter (fun q => q.id = p)).head?).map f := by
  induction l with
  | nil => rfl
  | cons x xs ih =>
    by_cases hx : x.id = p
    · simp [List.filter_cons, hid, hx]
    · simp [List.filter_cons, hid, hx, ih]

/-- C8: for a plan owned by the caller, `update_travel_plan` succeeds,
overwrites exactly the fields present in the update payload, sets
`updated_at` to the update time, leaves every absent field — and `id`,
`user_id`, `created_at` — at its prior value, and the stored row retrieved
afterwards equals the returned plan. -/
theorem update_applies_present_fields (db : Db) (p u : String) (upd : UpdateTravelPlan)
    (now : Int) (plan : TravelPlan)
    (hfind : TravelPlan.find_by_id db p = .ok (some plan)) (hown : plan.user_id = u) :
    ∃ dto db', TravelPlanService.update_travel_plan db p upd u now = .ok (dto, db') ∧
      dto.travel_plan.id = plan.id ∧
      dto.travel_plan.user_id = plan.user_id ∧
      dto.travel_plan.created_at = plan.created_at ∧
      dto.travel_plan.updated_at = now ∧
      dto.travel_plan.name = (match upd.name with | some v => v | none => plan.name) ∧
      dto.travel_plan.description =
        (match upd.description with | some v => some v | none => plan.description) ∧
      dto.travel_plan.start_location =
        (match upd.start_location with | some v => v | none => plan.start_location) ∧
      dto.travel_plan.end_location =
        (match upd.end_location with | some v => v | none => plan.end_location) ∧
      dto.travel_plan.start_date =
        (match upd.start_date with | some v => some v | none => plan.start_date) ∧
      dto.travel_plan.end_date =
        (match upd.end_date with | some v => some v | none => plan.end_date) ∧
      TravelPlan.find_by_id db' p = .ok (some dto.travel_plan) := by
  obtain ⟨hfault, hhead⟩ := find_by_id_inv db p plan hfind
  have hget : TravelPlanService.get_travel_plan_by_id db p u =
      .ok { travel_plan := plan, has_routes_generated := hasRoutesFlag db p } := by
    simp [TravelPlanService.get_travel_plan_by_id, hfind, hown]
  have hplanid : plan.id = p := by
    cases hfl : db.plans.filter (fun q => q.id = p) with
    | nil => rw [hfl] at hhead; simp at hhead
    | cons b t =>
      rw [hfl] at hhead
      simp at hhead
      have hb : b ∈ db.plans.filter (fun q => q.id = p) := by rw [hfl]; exact List.mem_cons_self b t
      have := List.of_mem_filter hb
      rw [hhead] at this
      simpa using this
  refine ⟨⟨{ plan with
      name := match upd.name with | some v => v | none => plan.name
      description := match upd.description with | some v => some v | none => plan.description
      start_location := match upd.start_location with | some v => v | none => plan.start_location
      end_location := match upd.end_location with | some v => v | none => plan.end_location
      start_date := match upd.start_date with | some v => some v | none => plan.start_date
      end_date := match upd.end_date with | some v => some v | none => plan.end_date
      updated_at := now }, hasRoutesFlag db p⟩,
    { db with plans := db.plans.map (fun q =>
        if q.id = plan.id then
          { q with
            name := match upd.name with | some v => v | none => plan.name
            description := match upd.description with | some v => some v | none => plan.description
            start_location :=
              match upd.start_location with | some v => v | none => plan.start_location
            end_location := match upd.end_location with | some v => v | none => plan.end_location
            start_date := match upd.start_date with | some v => some v | none => plan.start_date
            end_date := match upd.end_date with | some v => some v | none => plan.end_date
            updated_at := now }
        else q) },
    ?_, rfl, rfl, rfl, rfl, rfl, rfl, rfl, rfl, rfl, rfl, ?_⟩
  · simp only [TravelPlanService.update_travel_plan, hget, TravelPlan.update]
  · simp only [TravelPlan.find_by_id]
    have hfault' : ({ db with plans := db.plans.map (fun q =>
        if q.id = plan.id then
          { q with
            name := match upd.name with | some v => v | none => plan.name
            description := match upd.description with | some v => some v | none => plan.description
            start_location :=
              match upd.start_location with | some v => v | none => plan.start_location
            end_location := match upd.end_location with | some v => v | none => plan.end_location
            start_date := match upd.start_date with | some v => some v | none => plan.start_date
            end_date := match upd.end_date with | some v => some v | none => plan.end_date
            updated_at := now }
        else q) } : Db).plansFault = none := hfault
    rw [hfault']
    rw [filter_map_head db.plans p _ (fun q => by split <;> rfl)]
    rw [hhead]
    simp

/-- Witness for C8 at a concrete plan and a concrete update payload that
carries `name`, `end_location` and `start_date` but leaves the other
fields absent. -/
theorem update_applies_present_fields_witness :
    ∃ dto db',
      TravelPlanService.update_travel_plan dbPlain "p1"
        { name := some "New", description := none, start_location := none,
          end_location := some "SF", start_date := some 5, end_date := none } "alice" 99 =
        .ok (dto, db') ∧
      dto.travel_plan.id = planA.id ∧
      dto.travel_plan.user_id = planA.user_id ∧
      dto.travel_plan.created_at = planA.created_at ∧
      dto.travel_plan.updated_at = 99 ∧
      dto.travel_plan.name = "New" ∧
      dto.travel_plan.description = planA.description ∧
      dto.travel_plan.start_location = planA.start_location ∧
      dto.travel_plan.end_location = "SF" ∧
      dto.travel_plan.start_date = some 5 ∧
      dto.travel_plan.end_date = planA.end_date ∧
      TravelPlan.find_by_id db' "p1" = .ok (some dto.travel_plan) :=
  update_applies_present_fields dbPlain "p1" "alice"
    { name := some "New", description := none, start_location := none,
      end_location := some "SF", start_date := some 5, end_date := none } 99 planA
    (by rfl) rfl

/-! ### Range facts about the random draws -/

/-- `gen_range(lo..hi)` on integers never goes below `lo`. -/
theorem genRangeNat_lower (lo hi raw : Nat) : lo ≤ genRangeNat lo hi raw := by
  unfold genRangeNat
  omega

/-- `gen_range(lo..hi)` on integers stays strictly below `hi`. -/
theorem genRangeNat_upper (lo hi raw : Nat) (h : lo < hi) : genRangeNat lo hi raw < hi := by
  unfold genRangeNat
  have := Nat.mod_lt raw (show 0 < hi - lo by omega)
  omega

/-- `gen_range(lo..hi)` on reals produces a value in `[lo, hi)`. -/
theorem genRangeRat_bounds (lo hi : Rat) (raw : Nat) (h : lo < hi) :
    lo ≤ genRangeRat lo hi raw ∧ genRangeRat lo hi raw < hi := by
  unfold genRangeRat
  have hD : (0 : Rat) < (rngDenom : Rat) := by
    have h0 : (0 : Nat) < rngDenom := by norm_num [rngDenom]
    exact_mod_cast h0
  have hx0 : (0 : Rat) ≤ ((raw % rngDenom : Nat) : Rat) := by positivity
  have hx1 : ((raw % rngDenom : Nat) : Rat) < (rngDenom : Rat) := by
    exact_mod_cast Nat.mod_lt raw (by norm_num [rngDenom])
  constructor
  · have h1 : 0 ≤ (hi - lo) * ((raw % rngDenom : Nat) : Rat) :=
      mul_nonneg (by linarith) hx0
    have h2 := div_nonneg h1 (le_of_lt hD)
    linarith
  · have h3 : (hi - lo) * ((raw % rngDenom : Nat) : Rat) / (rngDenom : Rat) < hi - lo := by
      rw [div_lt_iff₀ hD]
      nlinarith
    linarith

/-- Every waypoint batch has exactly the requested number of entries, each
a coordinate pair with latitude in `[-90, 90)` and longitude in
`[-180, 180)`. -/
theorem genWaypoints_spec (g : Nat → Nat) :
    ∀ n idx, (genWaypoints g idx n).1.length = n ∧
      ∀ s ∈ (genWaypoints g idx n).1, ∃ a b : Rat,
        s = coordStr a b ∧ -90 ≤ a ∧ a < 90 ∧ -180 ≤ b ∧ b < 180 := by
  intro n
  induction n with
  | zero => intro idx; exact ⟨rfl, by intro s hs; simp [genWaypoints] at hs⟩
  | succ m ih =>
    intro idx
    obtain ⟨hlen, hall⟩ := ih (idx + 2)
    constructor
    · simp [genWaypoints, hlen]
    · intro s hs
      simp only [genWaypoints, List.mem_cons] at hs
      rcases hs with hs | hs
      · refine ⟨genRangeRat (-90) 90 (g idx), genRangeRat (-180) 180 (g (idx + 1)), hs, ?_, ?_, ?_, ?_⟩
        · exact (genRangeRat_bounds (-90) 90 (g idx) (by norm_num)).1
        · exact (genRangeRat_bounds (-90) 90 (g idx) (by norm_num)).2
        · exact (genRangeRat_bounds (-180) 180 (g (idx + 1)) (by norm_num)).1
        · exact (genRangeRat_bounds (-180) 180 (g (idx + 1)) (by norm_num)).2
      · exact hall s hs

/-! ### Behaviour of the POI generation loop -/

/-- The POI creation loop always succeeds, creates exactly the remaining
number of POIs, stamps each with the parent route id, and touches only the
`points_of_interest` table. -/
theorem generatePoisLoop_spec (roid sc ec : String) (w : Option String) (count : Nat)
    (g : Nat → Nat) (pid : Nat → String) (now : Int) :
    ∀ rem i idx db, ∃ pois db',
      generatePoisLoop roid sc ec w count g pid now i rem idx db = .ok (pois, db') ∧
      pois.length = rem ∧
      (∀ x ∈ pois, x.route_option_id = roid) ∧
      db'.route_options = db.route_options ∧
      db'.routesFault = db.routesFault ∧
      db'.plans = db.plans ∧
      db'.plansFault = db.plansFault := by
  intro rem
  induction rem with
  | zero =>
    intro i idx db
    exact ⟨[], db, rfl, rfl, by intro x hx; simp at hx, rfl, rfl, rfl, rfl⟩
  | succ m ih =>
    intro i idx db
    obtain ⟨pois, db2, hok, hlen, hall, hro, hrf, hp, hpf⟩ :=
      ih (i + 1) ((poiCoordPick sc ec w count g i idx).2 + 3)
        { db with points_of_interest := db.points_of_interest ++
            [{ id := pid i
               route_option_id := roid
               name := poiName (poiCategories.getD (genRangeNat 0 poiCategories.length
                 (g (poiCoordPick sc ec w count g i idx).2)) "")
                 (g ((poiCoordPick sc ec w count g i idx).2 + 1))
               description := poiDescription (poiCategories.getD
                 (genRangeNat 0 poiCategories.length
                   (g (poiCoordPick sc ec w count g i idx).2)) "")
                 (g ((poiCoordPick sc ec w count g i idx).2 + 2))
               category := some (poiCategories.getD (genRangeNat 0 poiCategories.length
                 (g (poiCoordPick sc ec w count g i idx).2)) "")
               coordinates := (poiCoordPick sc ec w count g i idx).1
               created_at := now }] }
    refine ⟨_, db2, by simp only [generatePoisLoop, PointOfInterest.create]; rw [hok],
      by simp [hlen], ?_, hro, hrf, hp, hpf⟩
    intro x hx
    rcases List.mem_cons.mp hx with hx | hx
    · rw [hx]
    · exact hall x hx

/-- A list containing a row with the wanted id filters to a nonempty
prefix, so the `WHERE id = ?1` lookup returns some row. -/
theorem route_filter_head_some (l : List RouteOption) (roid : String)
    (hmem : ∃ r ∈ l, r.id = roid) :
    ∃ r', (l.filter (fun x => x.id = roid)).head? = some r' := by
  obtain ⟨r, hr, hid⟩ := hmem
  have hmemf : r ∈ l.filter (fun x => x.id = roid) := List.mem_filter.mpr ⟨hr, by simp [hid]⟩
  cases hfl : l.filter (fun x => x.id = roid) with
  | nil => rw [hfl] at hmemf; cases hmemf
  | cons b t => exact ⟨b, rfl⟩

/-- `generate_random_pois` on a healthy route table and an existing route
id succeeds with exactly `count` POIs, all stamped with that route id, and
touches only the `points_of_interest` table. -/
theorem generate_random_pois_spec (db : Db) (roid : String) (count : Nat)
    (g : Nat → Nat) (pid : Nat → String) (now : Int)
    (hfault : db.routesFault = none)
    (hmem : ∃ r ∈ db.route_options, r.id = roid) :
    ∃ pois db', PointOfInterest.generate_random_pois db roid count g pid now = .ok (pois, db') ∧
      pois.length = count ∧
      (∀ x ∈ pois, x.route_option_id = roid) ∧
      db'.route_options = db.route_options ∧
      db'.routesFault = db.routesFault ∧
      db'.plans = db.plans ∧
      db'.plansFault = db.plansFault := by
  obtain ⟨r', hhead⟩ := route_filter_head_some db.route_options roid hmem
  obtain ⟨pois, db', hok, hlen, hall, hro, hrf, hp, hpf⟩ :=
    generatePoisLoop_spec roid r'.start_coordinates r'.end_coordinates r'.waypoints count
      g pid now count 0 0 db
  refine ⟨pois, db', ?_, hlen, hall, hro, hrf, hp, hpf⟩
  simp only [PointOfInterest.generate_random_pois, hfault, hhead]
  exact hok

/-! ### Behaviour of the route-option generation loop -/

/-- What the generator guarantees for every route option it creates: the
parent plan id, a distance in `[10, 1000)` kilometres, a duration in the
integer interval `[30, 719]` minutes, and 1–4 waypoints, each a coordinate
pair, joined with `";"`. -/
def GeneratedRoute (tpid : String) (r : RouteOption) : Prop :=
  r.travel_plan_id = tpid ∧
  (∃ d : Rat, r.distance = some d ∧ 10 ≤ d ∧ d < 1000) ∧
  (∃ m : Nat, r.duration = some (m : Int) ∧ 30 ≤ m ∧ m ≤ 719) ∧
  (∃ parts : List String, 1 ≤ parts.length ∧ parts.length ≤ 4 ∧
    r.waypoints = some (String.intercalate ";" parts) ∧
    ∀ s ∈ parts, ∃ a b : Rat, s = coordStr a b ∧ -90 ≤ a ∧ a < 90 ∧ -180 ≤ b ∧ b < 180)

/-- The route creation loop always succeeds, creates exactly the remaining
number of routes, appends them to the `route_options` table in order, and
every created route satisfies `GeneratedRoute`. -/
theorem generateRouteOptionsLoop_spec (tpid sl el sc ec : String) (g : Nat → Nat)
    (ids : Nat → String) (now : Int) :
    ∀ rem i idx db, ∃ routes db',
      generateRouteOptionsLoop tpid sl el sc ec g ids now i rem idx db = .ok (routes, db') ∧
      routes.length = rem ∧
      (∀ r ∈ routes, GeneratedRoute tpid r) ∧
      db'.route_options = db.route_options ++ routes ∧
      db'.routesFault = db.routesFault ∧
      db'.plans = db.plans ∧
      db'.plansFault = db.plansFault := by
  intro rem
  induction rem with
  | zero =>
    intro i idx db
    refine ⟨[], db, rfl, rfl, ?_, by simp, rfl, rfl, rfl⟩
    intro r hr
    cases hr
  | succ m ih =>
    intro i idx db
    obtain ⟨routes, db2, hok, hlen, hall, hro, hrf, hp, hpf⟩ :=
      ih (i + 1) (genWaypoints g (idx + 3) (genRangeNat 1 5 (g (idx + 2)))).2
        { db with route_options := db.route_options ++
            [{ id := ids i
               travel_plan_id := tpid
               name := "Route Option " ++ toString (i + 1)
               description :=
                 if i % 3 = 0 then some ("Scenic route from " ++ sl ++ " to " ++ el)
                 else if i % 3 = 1 then some ("Fastest route from " ++ sl ++ " to " ++ el)
                 else some ("Alternative route from " ++ sl ++ " to " ++ el)
               distance := some (genRangeRat 10 1000 (g idx))
               duration := some ((genRangeNat 30 720 (g (idx + 1)) : Int))
               start_coordinates := sc
               end_coordinates := ec
               waypoints :=
                 if (genWaypoints g (idx + 3) (genRangeNat 1 5 (g (idx + 2)))).1.isEmpty then none
                 else some (String.intercalate ";"
                   (genWaypoints g (idx + 3) (genRangeNat 1 5 (g (idx + 2)))).1)
               created_at := now }] }
    refine ⟨_, db2,
      by simp only [generateRouteOptionsLoop, RouteOption.create]; rw [hok], by simp [hlen],
      ?_, ?_, hrf, hp, hpf⟩
    · intro r hr
      rcases List.mem_cons.mp hr with hr | hr
      · subst hr
        have hwcount1 : 1 ≤ genRangeNat 1 5 (g (idx + 2)) := genRangeNat_lower 1 5 (g (idx + 2))
        have hwcount4 : genRangeNat 1 5 (g (idx + 2)) < 5 :=
          genRangeNat_upper 1 5 (g (idx + 2)) (by norm_num)
        obtain ⟨hwlen, hwall⟩ := genWaypoints_spec g (genRangeNat 1 5 (g (idx + 2))) (idx + 3)
        have hne : ¬ (genWaypoints g (idx + 3) (genRangeNat 1 5 (g (idx + 2)))).1.isEmpty := by
          rw [List.isEmpty_iff_length_eq_zero, hwlen]
          omega
        refine ⟨rfl, ⟨genRangeRat 10 1000 (g idx), rfl,
            (genRangeRat_bounds 10 1000 (g idx) (by norm_num)).1,
            (genRangeRat_bounds 10 1000 (g idx) (by norm_num)).2⟩,
          ⟨genRangeNat 30 720 (g (idx + 1)), rfl, genRangeNat_lower 30 720 (g (idx + 1)), ?_⟩,
          ⟨(genWaypoints g (idx + 3) (genRangeNat 1 5 (g (idx + 2)))).1, ?_, ?_, ?_, hwall⟩⟩
        · have := genRangeNat_upper 30 720 (g (idx + 1)) (by norm_num)
          omega
        · omega
        · omega
        · simp [hne]
      · exact hall r hr
    · rw [hro]
      simp

/-- `generate_random_options` on a healthy plan table and an existing plan
id succeeds with exactly `count` routes, all satisfying `GeneratedRoute`,
appended to the `route_options` table. -/
theorem generate_random_options_spec (db : Db) (tpid : String) (count : Nat)
    (g : Nat → Nat) (ids : Nat → String) (now : Int)
    (hfault : db.plansFault = none)
    (hplan : ∃ plan, (db.plans.filter (fun p => p.id = tpid)).head? = some plan) :
    ∃ routes db',
      RouteOption.generate_random_options db tpid count g ids now = .ok (routes, db') ∧
      routes.length = count ∧
      (∀ r ∈ routes, GeneratedRoute tpid r) ∧
      db'.route_options = db.route_options ++ routes ∧
      db'.routesFault = db.routesFault ∧
      db'.plans = db.plans ∧
      db'.plansFault = db.plansFault := by
  obtain ⟨plan, hhead⟩ := hplan
  obtain ⟨routes, db', hok, hlen, hall, hro, hrf, hp, hpf⟩ :=
    generateRouteOptionsLoop_spec tpid plan.start_location plan.end_location
      (randCoord g 0) (randCoord g 2) g ids now count 0 4 db
  refine ⟨routes, db', ?_, hlen, hall, hro, hrf, hp, hpf⟩
  simp only [RouteOption.generate_random_options, hfault, hhead]
  exact hok

/-- Inversion of a successful `generate_random_options`: either the plan
row was absent (no routes, state unchanged) or exactly `count` routes
satisfying `GeneratedRoute` were created and appended. -/
theorem generate_random_options_ok_cases (db : Db) (tpid : String) (count : Nat)
    (g : Nat → Nat) (ids : Nat → String) (now : Int) (routes : List RouteOption) (db' : Db)
    (h : RouteOption.generate_random_options db tpid count g ids now = .ok (routes, db')) :
    (routes = [] ∧ db' = db) ∨
    (routes.length = count ∧ (∀ r ∈ routes, GeneratedRoute tpid r) ∧
      db'.route_options = db.route_options ++ routes ∧
      db'.routesFault = db.routesFault) := by
  cases hf : db.plansFault with
  | some e =>
    have he : RouteOption.generate_random_options db tpid count g ids now = .error e := by
      simp only [RouteOption.generate_random_options, hf]
    rw [he] at h
    simp at h
  | none =>
    cases hhead : (db.plans.filter (fun p => p.id = tpid)).head? with
    | none =>
      have he : RouteOption.generate_random_options db tpid count g ids now = .ok ([], db) := by
        simp only [RouteOption.generate_random_options, hf, hhead]
      rw [he] at h
      simp only [Except.ok.injEq, Prod.mk.injEq] at h
      exact Or.inl ⟨h.1.symm, h.2.symm⟩
    | some plan =>
      obtain ⟨routes₀, db₀, hok, hlen, hall, hro, hrf, hp, hpf⟩ :=
        generate_random_options_spec db tpid count g ids now hf ⟨plan, hhead⟩
      rw [hok] at h
      simp only [Except.ok.injEq, Prod.mk.injEq] at h
      obtain ⟨h1, h2⟩ := h
      subst h1
      subst h2
      exact Or.inr ⟨hlen, hall, hro, hrf⟩

/-- The per-route POI generation loop of the service succeeds on a healthy
route table whenever every listed route is present, pairing each route
with exactly `poi_count` POIs stamped with that route's id. -/
theorem generatePoisForRoutes_spec (gp : Nat → Nat → Nat) (pids : Nat → Nat → String)
    (now : Int) (poi_count : Nat) :
    ∀ routes i db, db.routesFault = none →
      (∀ r ∈ routes, ∃ x ∈ db.route_options, x.id = r.id) →
      ∃ result db',
        generatePoisForRoutes gp pids now poi_count i routes db = .ok (result, db') ∧
        result.map (fun rwp => rwp.route) = routes ∧
        ∀ rwp ∈ result, rwp.points_of_interest.length = poi_count ∧
          ∀ x ∈ rwp.points_of_interest, x.route_option_id = rwp.route.id := by
  intro routes
  induction routes with
  | nil =>
    intro i db hf hm
    refine ⟨[], db, rfl, rfl, ?_⟩
    intro rwp hrwp
    cases hrwp
  | cons r rest ih =>
    intro i db hf hm
    obtain ⟨pois, db1, hok1, hlen1, hall1, hro1, hrf1, hp1, hpf1⟩ :=
      generate_random_pois_spec db r.id poi_count (gp i) (pids i) now hf
        (hm r (List.mem_cons_self r rest))
    obtain ⟨result, db2, hok2, hmap2, hall2⟩ := ih (i + 1) db1 (by rw [hrf1]; exact hf)
      (by intro q hq; rw [hro1]; exact hm q (List.mem_cons_of_mem r hq))
    refine ⟨{ route := r, points_of_interest := pois } :: result, db2, ?_, ?_, ?_⟩
    · simp only [generatePoisForRoutes, hok1, hok2]
    · simp [hmap2]
    · intro rwp hrwp
      rcases List.mem_cons.mp hrwp with hh | hh
      · subst hh
        refine ⟨hlen1, ?_⟩
        intro x hx
        exact hall1 x hx
      · exact hall2 rwp hh

/-- Inversion of a successful `get_travel_plan_by_id`: the plan row was
found and is the one returned. -/
theorem get_plan_ok_inv (db : Db) (p u : String) (dto : TravelPlanDto)
    (h : TravelPlanService.get_travel_plan_by_id db p u = .ok dto) :
    TravelPlan.find_by_id db p = .ok (some dto.travel_plan) ∧ dto.travel_plan.user_id = u := by
  unfold TravelPlanService.get_travel_plan_by_id at h
  cases hf : TravelPlan.find_by_id db p with
  | error e => rw [hf] at h; simp at h
  | ok o =>
    cases o with
    | none => rw [hf] at h; simp at h
    | some plan =>
      rw [hf] at h
      by_cases hu : plan.user_id ≠ u
      · simp [hu] at h
      · simp only [hu, if_neg, ite_false, Except.ok.injEq] at h
        refine ⟨?_, ?_⟩
        · rw [← h]
        · rw [← h]
          simpa using hu

/-! ### C9: value ranges of the generator -/

/-- C9 amended: every route option produced by the generator has a distance
drawn from `[10, 1000)` kilometres, a duration drawn from the integer
interval `[30, 719]` minutes (the Rust `gen_range(30..720)` excludes 720),
and 1–4 waypoints, each a coordinate pair, joined with `";"`. -/
theorem generator_value_ranges (db : Db) (tpid : String) (count : Nat) (g : Nat → Nat)
    (ids : Nat → String) (now : Int) (routes : List RouteOption) (db' : Db)
    (h : RouteOption.generate_random_options db tpid count g ids now = .ok (routes, db')) :
    ∀ r ∈ routes,
      (∃ d : Rat, r.distance = some d ∧ 10 ≤ d ∧ d < 1000) ∧
      (∃ m : Nat, r.duration = some (m : Int) ∧ 30 ≤ m ∧ m ≤ 719) ∧
      (∃ parts : List String, 1 ≤ parts.length ∧ parts.length ≤ 4 ∧
        r.waypoints = some (String.intercalate ";" parts) ∧
        ∀ s ∈ parts, ∃ a b : Rat, s = coordStr a b) := by
  intro r hr
  rcases generate_random_options_ok_cases db tpid count g ids now routes db' h with
    ⟨hnil, _⟩ | ⟨_, hall, _, _⟩
  · subst hnil; cases hr
  · obtain ⟨-, hdist, hdur, parts, hp1, hp4, hwp, hparts⟩ := hall r hr
    refine ⟨hdist, hdur, parts, hp1, hp4, hwp, ?_⟩
    intro s hs
    obtain ⟨a, b, hab, -⟩ := hparts s hs
    exact ⟨a, b, hab⟩

/-- Witness for C9 on a concrete state and a concrete random stream. -/
theorem generator_value_ranges_witness :
    ∃ routes db',
      RouteOption.generate_random_options dbPlain "p1" 2 (fun n => n)
        (fun n => "r" ++ toString n) 7 = .ok (routes, db') ∧
      ∀ r ∈ routes,
        (∃ d : Rat, r.distance = some d ∧ 10 ≤ d ∧ d < 1000) ∧
        (∃ m : Nat, r.duration = some (m : Int) ∧ 30 ≤ m ∧ m ≤ 719) ∧
        (∃ parts : List String, 1 ≤ parts.length ∧ parts.length ≤ 4 ∧
          r.waypoints = some (String.intercalate ";" parts) ∧
          ∀ s ∈ parts, ∃ a b : Rat, s = coordStr a b) := by
  obtain ⟨routes, db', hok, -, -, -, -, -, -⟩ :=
    generate_random_options_spec dbPlain "p1" 2 (fun n => n) (fun n => "r" ++ toString n) 7
      rfl ⟨planA, rfl⟩
  exact ⟨routes, db', hok,
    generator_value_ranges dbPlain "p1" 2 (fun n => n) (fun n => "r" ++ toString n) 7
      routes db' hok⟩

/-- C9 counterexample: the claimed inclusive upper endpoint 720 of the
duration interval is never attained — `gen_range(30..720)` is half-open, so
no run of the generator can produce a route option with duration 720. -/
theorem generator_duration_never_720 :
    ¬ ∃ (db : Db) (tpid : String) (count : Nat) (g : Nat → Nat) (ids : Nat → String)
      (now : Int) (routes : List RouteOption) (db' : Db) (r : RouteOption),
      RouteOption.generate_random_options db tpid count g ids now = .ok (routes, db') ∧
      r ∈ routes ∧ r.duration = some 720 := by
  rintro ⟨db, tpid, count, g, ids, now, routes, db', r, h, hr, hdur⟩
  rcases generate_random_options_ok_cases db tpid count g ids now routes db' h with
    ⟨hnil, -⟩ | ⟨-, hall, -, -⟩
  · subst hnil; cases hr
  · obtain ⟨-, -, ⟨m, hm, h30, h719⟩, -⟩ := hall r hr
    rw [hdur] at hm
    simp only [Option.some.injEq] at hm
    omega

/-! ### C6: the generator count contract -/

/-- C6: a successful `generate_route_options(caller, plan_id, N)` returns
exactly N route options, each paired with exactly `2 + (N mod 4)` points of
interest (hence between 2 and 5 inclusive), and every returned POI's
`route_option_id` references one of the N returned routes. -/
theorem generator_count_contract (db : Db) (plan_id u : String) (count : Nat)
    (g : Nat → Nat) (ids : Nat → String) (gp : Nat → Nat → Nat) (pids : Nat → Nat → String)
    (now : Int) (result : List RouteOptionWithPois) (db' : Db)
    (h : RouteOptionService.generate_route_options db plan_id u count g ids gp pids now =
      .ok (result, db')) :
    result.length = count ∧
    ∀ rwp ∈ result,
      rwp.points_of_interest.length = 2 + count % 4 ∧
      2 ≤ rwp.points_of_interest.length ∧ rwp.points_of_interest.length ≤ 5 ∧
      ∀ x ∈ rwp.points_of_interest, ∃ q ∈ result, x.route_option_id = q.route.id := by
  unfold RouteOptionService.generate_route_options at h
  cases hget : TravelPlanService.get_travel_plan_by_id db plan_id u with
  | error e => rw [hget] at h; simp at h
  | ok dto =>
    rw [hget] at h
    simp only [] at h
    cases hgen : RouteOption.generate_random_options db plan_id count g ids now with
    | error e => rw [hgen] at h; simp at h
    | ok pr =>
      obtain ⟨routes, db₁⟩ := pr
      rw [hgen] at h
      simp only [] at h
      obtain ⟨hfind, -⟩ := get_plan_ok_inv db plan_id u dto hget
      obtain ⟨hfault, hhead⟩ := find_by_id_inv db plan_id dto.travel_plan hfind
      rcases generate_random_options_ok_cases db plan_id count g ids now routes db₁ hgen with
        ⟨hnil, hdb⟩ | ⟨hlen, -, hro, hrf⟩
      · obtain ⟨routes₀, db₀, hok, hlen₀, -, -, -, -, -⟩ :=
          generate_random_options_spec db plan_id count g ids now hfault
            ⟨dto.travel_plan, hhead⟩
        rw [hgen] at hok
        simp only [Except.ok.injEq, Prod.mk.injEq] at hok
        obtain ⟨h1, -⟩ := hok
        subst hnil
        subst h1
        simp only [List.length_nil] at hlen₀
        subst hlen₀
        cases hres : generatePoisForRoutes gp pids now (2 + 0 % 4) 0 [] db₁ with
        | error e => rw [hres] at h; simp at h
        | ok pr2 =>
          rw [hres] at h
          have hres' : pr2 = ([], db₁) := by
            have : generatePoisForRoutes gp pids now (2 + 0 % 4) 0 [] db₁ = .ok ([], db₁) := rfl
            rw [hres] at this
            simpa using this
          rw [hres'] at h
          simp only [Except.ok.injEq, Prod.mk.injEq] at h
          obtain ⟨h2, -⟩ := h
          subst h2
          refine ⟨rfl, ?_⟩
          intro rwp hrwp
          cases hrwp
      · cases hrfv : db₁.routesFault with
        | none =>
          obtain ⟨result₀, db₂, hok2, hmap2, hall2⟩ :=
            generatePoisForRoutes_spec gp pids now (2 + count % 4) routes 0 db₁ hrfv
              (by
                intro q hq
                rw [hro]
                exact ⟨q, List.mem_append_right _ hq, rfl⟩)
          rw [hok2] at h
          simp only [Except.ok.injEq, Prod.mk.injEq] at h
          obtain ⟨h1, -⟩ := h
          subst h1
          constructor
          · rw [← hlen, ← hmap2, List.length_map]
          · intro rwp hrwp
            obtain ⟨hplen, hpid⟩ := hall2 rwp hrwp
            refine ⟨hplen, by omega, by omega, ?_⟩
            intro x hx
            exact ⟨rwp, hrwp, hpid x hx⟩
        | some e =>
          cases routes with
          | nil =>
            simp only [List.length_nil] at hlen
            subst hlen
            simp only [Nat.zero_mod] at h
            have hres : generatePoisForRoutes gp pids now (2 + 0 % 4) 0
                ([] : List RouteOption) db₁ = .ok ([], db₁) := rfl
            rw [hres] at h
            simp only [Except.ok.injEq, Prod.mk.injEq] at h
            obtain ⟨h2, -⟩ := h
            subst h2
            refine ⟨rfl, ?_⟩
            intro rwp hrwp
            cases hrwp
          | cons r rest =>
            have hfail : generatePoisForRoutes gp pids now (2 + count % 4) 0 (r :: rest) db₁ =
                .error (.databaseError e) := by
              simp only [generatePoisForRoutes, PointOfInterest.generate_random_pois, hrfv]
            rw [hfail] at h
            simp at h

/-- Witness for C6: a concrete generation of one route on a concrete state,
returning exactly one route with `2 + (1 mod 4) = 3` points of interest,
all referencing the returned route. -/
theorem generator_count_contract_witness :
    ∃ result db',
      RouteOptionService.generate_route_options dbPlain "p1" "alice" 1 (fun n => n)
        (fun n => "r" ++ toString n) (fun i j => i + j)
        (fun i j => "q" ++ toString i ++ toString j) 0 = .ok (result, db') ∧
      result.length = 1 ∧
      ∀ rwp ∈ result,
        rwp.points_of_interest.length = 2 + 1 % 4 ∧
        2 ≤ rwp.points_of_interest.length ∧ rwp.points_of_interest.length ≤ 5 ∧
        ∀ x ∈ rwp.points_of_interest, ∃ q ∈ result, x.route_option_id = q.route.id := by
  have hget : TravelPlanService.get_travel_plan_by_id dbPlain "p1" "alice" =
      .ok { travel_plan := planA, has_routes_generated := false } := by rfl
  obtain ⟨routes, db₁, hok1, hlen1, hall1, hro1, hrf1, hp1, hpf1⟩ :=
    generate_random_options_spec dbPlain "p1" 1 (fun n => n) (fun n => "r" ++ toString n) 0
      rfl ⟨planA, rfl⟩
  obtain ⟨result, db₂, hok2, hmap2, hall2⟩ :=
    generatePoisForRoutes_spec (fun i j => i + j) (fun i j => "q" ++ toString i ++ toString j)
      0 (2 + 1 % 4) routes 0 db₁ (by rw [hrf1]; rfl)
      (by
        intro q hq
        rw [hro1]
        exact ⟨q, by simp [hq], rfl⟩)
  have hok : RouteOptionService.generate_route_options dbPlain "p1" "alice" 1 (fun n => n)
      (fun n => "r" ++ toString n) (fun i j => i + j)
      (fun i j => "q" ++ toString i ++ toString j) 0 = .ok (result, db₂) := by
    simp only [RouteOptionService.generate_route_options, hget, hok1]
    exact hok2
  exact ⟨result, db₂, hok,
    (generator_count_contract dbPlain "p1" "alice" 1 (fun n => n) (fun n => "r" ++ toString n)
      (fun i j => i + j) (fun i j => "q" ++ toString i ++ toString j) 0 result db₂ hok).1,
    (generator_count_contract dbPlain "p1" "alice" 1 (fun n => n) (fun n => "r" ++ toString n)
      (fun i j => i + j) (fun i j => "q" ++ toString i ++ toString j) 0 result db₂ hok).2⟩

end TravelApi
